import Mathlib

set_option maxRecDepth 8000

/-!
Shallow embedding of `src/peft/tuners/multitask_prompt_tuning.py`.

Tensors are modelled as nested lists of rationals.  Machine floats are
modelled by `ℚ` (the claims only involve exact small dyadic values).
Fallible operations return `Except MPTErr`, mirroring Python exceptions:
`IndexError` from gathers and advanced indexing, `KeyError` from dict
access, `ValueError` from the configuration check, and the fatal error of
`load_state_dict` on a shape mismatch.  The fresh Gaussian draws of
`torch.normal` are modelled by noise oracles (functions from the index
triple to the sampled value); allocation and the `torch.load` call are
recorded in an event trace so that ordering properties can be stated.
-/

deriving instance DecidableEq for Except

namespace MPT

/-- Source enum `MultitaskPromptTuningInit` (lines 12-20). -/
inductive MPTInit
  | TEXT
  | RANDOM
  | AVERAGE_SOURCE_TASKS
  | EXACT_SOURCE_TASK
  | ONLY_SOURCE_SHARED
deriving DecidableEq

/-- String value of the enum member, as interpolated into the error message. -/
def modeName : MPTInit → String
  | MPTInit.TEXT => "TEXT"
  | MPTInit.RANDOM => "RANDOM"
  | MPTInit.AVERAGE_SOURCE_TASKS => "AVERAGE_SOURCE_TASKS"
  | MPTInit.EXACT_SOURCE_TASK => "EXACT_SOURCE_TASK"
  | MPTInit.ONLY_SOURCE_SHARED => "ONLY_SOURCE_SHARED"

/-- Source dataclass `MultitaskPromptTuningConfig` (lines 23-35), together with
the fields it inherits from the base prompt-tuning configuration that the
module reads (`num_virtual_tokens`, `num_transformer_submodules`, `token_dim`).
Default values mirror the dataclass defaults; `prompt_tuning_init_task` is a
Python `int` used as a tensor index, hence `ℤ`, with default `0` (line 33). -/
structure MPTConfig where
  prompt_tuning_init : MPTInit := MPTInit.RANDOM
  prompt_tuning_init_state_dict_path : Option String := none
  prompt_tuning_init_task : ℤ := 0
  num_ranks : ℕ := 1
  num_tasks : ℕ := 1
  num_virtual_tokens : ℕ
  num_transformer_submodules : ℕ
  token_dim : ℕ
deriving DecidableEq

/-- Parameter state of `MultitaskPromptEmbedding`: `base_vectors` is the
shared `embedding.weight` of the base prompt embedding, `task_cols` and
`task_rows` model the `prefix_task_cols` / `prefix_task_rows` parameters. -/
structure MPTState where
  base_vectors : List (List ℚ)
  task_cols : List (List (List ℚ))
  task_rows : List (List (List ℚ))
deriving DecidableEq

/-- Logical content of the checkpoint dict read by `torch.load` (line 78).
Each field is the value at the corresponding key ("prompt_embeddings",
"prefix_task_cols", "prefix_task_rows"), or `none` when the key is absent. -/
structure Checkpoint where
  prompt_embeddings : Option (List (List ℚ)) := none
  src_task_cols : Option (List (List (List ℚ))) := none
  src_task_rows : Option (List (List (List ℚ))) := none
deriving DecidableEq

/-- Errors raised by the module, one constructor per Python exception kind. -/
inductive MPTErr
  | inputError (msg : String)
  | indexError
  | configError (msg : String)
  | keyError (key : String)
  | loadError
deriving DecidableEq

/-- Events recorded during construction, used to state ordering facts:
`allocFactors` is the `torch.normal` allocation of the two factor
parameters (lines 53-66), `checkpointRead` is the `torch.load` (line 78). -/
inductive MPTEvent
  | allocFactors
  | checkpointRead
deriving DecidableEq

/-- Python dict access `d[key]`: `KeyError` when the key is absent. -/
def dictGet {α : Type} (o : Option α) (key : String) : Except MPTErr α :=
  match o with
  | some v => Except.ok v
  | none => Except.error (MPTErr.keyError key)

/-- Element at a natural-number position, `IndexError` past the end. -/
def nthE {α : Type} : List α → ℕ → Except MPTErr α
  | [], _ => Except.error MPTErr.indexError
  | a :: _, 0 => Except.ok a
  | _ :: t, n + 1 => nthE t n

/-- Total element access with a default value past the end. -/
def nthD {α : Type} (d : α) : List α → ℕ → α
  | [], _ => d
  | a :: _, 0 => a
  | _ :: t, n + 1 => nthD d t n

/-- Gather along dimension 0 at one index, as performed by both
`torch.index_select` (lines 116-117) and the embedding lookup (line 114):
an index outside `[0, len)` raises `IndexError` (these ops reject negative
indices). -/
def gatherIdx {α : Type} (xs : List α) (i : ℤ) : Except MPTErr α :=
  if i < 0 then Except.error MPTErr.indexError else nthE xs i.toNat

/-- Python/torch `x[i, ...]` advanced indexing with an `int` index
(lines 94-95): a negative index `i` with `-len ≤ i` selects `x[len + i]`;
an index outside `[-len, len)` raises `IndexError`. -/
def pyGetItem {α : Type} (xs : List α) (i : ℤ) : Except MPTErr α :=
  let j : ℤ := if i < 0 then i + xs.length else i
  if j < 0 then Except.error MPTErr.indexError else nthE xs j.toNat

/-- Tensor produced by `torch.normal(mean, std, size=(d0, d1, d2))`: shape
is `(d0, d1, d2)` and the entries come from the sampling oracle `f`. -/
def mkTensor3 (d0 d1 d2 : ℕ) (f : ℕ → ℕ → ℕ → ℚ) : List (List (List ℚ)) :=
  (List.range d0).map fun i =>
    (List.range d1).map fun j =>
      (List.range d2).map fun k => f i j k

/-- Shape of a 2-d tensor (list of row lengths; its own length is the
leading dimension). -/
def shape2 (x : List (List ℚ)) : List ℕ := x.map List.length

/-- Shape of a 3-d tensor. -/
def shape3 (x : List (List (List ℚ))) : List (List ℕ) := x.map shape2

/-- Torch `x.mean(0, keepdim=True)` on a 3-d tensor: the leading dimension
collapses to size 1 and entry `(0, j, k)` is the arithmetic mean of the
entries `(t, j, k)` over all leading slices `t`. -/
def meanDim0Keep (x : List (List (List ℚ))) : List (List (List ℚ)) :=
  [(List.range (x.headD []).length).map fun j =>
    (List.range (nthD [] (x.headD []) j).length).map fun k =>
      (x.map fun t => nthD 0 (nthD [] t j) k).sum / (x.length : ℚ)]

/-- `load_state_dict(..., strict=True)` (line 103) with the three keys
`embedding.weight`, `prefix_task_cols`, `prefix_task_rows` supplied: every
tensor must match the shape of the current parameter, otherwise the load
fails fatally; on success all three parameters are overwritten. -/
def loadStrict (s : MPTState) (pe : List (List ℚ))
    (cols rows : List (List (List ℚ))) : Except MPTErr MPTState :=
  if shape2 pe = shape2 s.base_vectors ∧ shape3 cols = shape3 s.task_cols ∧
      shape3 rows = shape3 s.task_rows then
    Except.ok { base_vectors := pe, task_cols := cols, task_rows := rows }
  else Except.error MPTErr.loadError

/-- `load_state_dict(..., strict=False)` (line 109) with only
`embedding.weight` supplied: missing keys are tolerated, but a shape
mismatch on the supplied tensor is still fatal; only `base_vectors` is
overwritten. -/
def loadNonStrictBase (s : MPTState) (pe : List (List ℚ)) :
    Except MPTErr MPTState :=
  if shape2 pe = shape2 s.base_vectors then
    Except.ok { s with base_vectors := pe }
  else Except.error MPTErr.loadError

/-- Message of the `ValueError` raised at line 74 when the state-dict path
is missing for a checkpoint-based init mode. -/
def pathErrorMsg (m : MPTInit) : String :=
  "prompt_tuning_init_state_dict_path needs to be specified with " ++
    modeName m ++ " init method"

/-- Parameter state right after lines 43-66: `embedInit` is the
`embedding.weight` produced by the base-class constructor (line 43, out of
scope here); the two factor parameters are the fresh `torch.normal` draws,
whose sampled entries come from the oracles `noiseCols`/`noiseRows`. -/
def initState (cfg : MPTConfig) (embedInit : List (List ℚ))
    (noiseCols noiseRows : ℕ → ℕ → ℕ → ℚ) : MPTState :=
  { base_vectors := embedInit
    task_cols := mkTensor3 cfg.num_tasks
      (cfg.num_virtual_tokens * cfg.num_transformer_submodules) cfg.num_ranks noiseCols
    task_rows := mkTensor3 cfg.num_tasks cfg.num_ranks cfg.token_dim noiseRows }

/-- `MultitaskPromptEmbedding.__init__` (lines 42-109).  `fs` maps a path to
the checkpoint contents read by `torch.load`.  Returns the event trace
together with either the constructed parameter state or the raised error. -/
def mptInit (cfg : MPTConfig) (embedInit : List (List ℚ))
    (noiseCols noiseRows : ℕ → ℕ → ℕ → ℚ) (fs : String → Checkpoint) :
    List MPTEvent × Except MPTErr MPTState :=
  let s0 : MPTState := initState cfg embedInit noiseCols noiseRows
  if cfg.prompt_tuning_init ∈ [MPTInit.AVERAGE_SOURCE_TASKS,
      MPTInit.EXACT_SOURCE_TASK, MPTInit.ONLY_SOURCE_SHARED] then
    match cfg.prompt_tuning_init_state_dict_path with
    | none =>
        ([MPTEvent.allocFactors],
          Except.error (MPTErr.configError (pathErrorMsg cfg.prompt_tuning_init)))
    | some path =>
        let sd := fs path
        if cfg.prompt_tuning_init ∈ [MPTInit.AVERAGE_SOURCE_TASKS,
            MPTInit.EXACT_SOURCE_TASK] then
          ([MPTEvent.allocFactors, MPTEvent.checkpointRead], do
            let cols ← dictGet sd.src_task_cols "prefix_task_cols"
            let rows ← dictGet sd.src_task_rows "prefix_task_rows"
            let pair ←
              if cfg.prompt_tuning_init = MPTInit.AVERAGE_SOURCE_TASKS then
                Except.ok (meanDim0Keep cols, meanDim0Keep rows)
              else do
                let c ← pyGetItem cols cfg.prompt_tuning_init_task
                let r ← pyGetItem rows cfg.prompt_tuning_init_task
                Except.ok ([c], [r])
            let pe ← dictGet sd.prompt_embeddings "prompt_embeddings"
            loadStrict s0 pe pair.1 pair.2)
        else
          ([MPTEvent.allocFactors, MPTEvent.checkpointRead], do
            let pe ← dictGet sd.prompt_embeddings "prompt_embeddings"
            loadNonStrictBase s0 pe)
  else ([MPTEvent.allocFactors], Except.ok s0)

/-- Matrix product of a `[m, r]` and an `[r, n]` matrix (`torch.matmul` on
the last two dimensions, line 118). -/
def matmul2 (A B : List (List ℚ)) : List (List ℚ) :=
  A.map fun ar =>
    (List.range (B.headD []).length).map fun k =>
      (List.zipWith (fun a brow => a * nthD 0 brow k) ar B).sum

/-- Elementwise product of two 2-d tensors of equal shape. -/
def mul2 (a b : List (List ℚ)) : List (List ℚ) :=
  List.zipWith (List.zipWith (· * ·)) a b

/-- Elementwise product of two 3-d tensors of equal shape
(`prompt_embeddings *= task_prompts`, line 120). -/
def mul3 (a b : List (List (List ℚ))) : List (List (List ℚ)) :=
  List.zipWith mul2 a b

/-- All-or-nothing elementwise traversal: the whole gather fails as soon as
one element fails, as a torch gather does. -/
def mapME {α β : Type} (f : α → Except MPTErr β) : List α → Except MPTErr (List β)
  | [] => Except.ok []
  | a :: t => do
    let b ← f a
    let bs ← mapME f t
    Except.ok (b :: bs)

/-- `MultitaskPromptEmbedding.forward` (lines 111-122), with the state it
leaves behind made explicit: the in-place `*=` at line 120 mutates only the
freshly gathered `prompt_embeddings` tensor, so the parameter state is
returned unchanged.  `indices` is the batched `[batch, total_virtual_tokens]`
index tensor fed to the embedding lookup; `task_ids` is `none` when the
Python argument is `None`. -/
def forwardSt (s : MPTState) (indices : List (List ℤ))
    (task_ids : Option (List ℤ)) :
    Except MPTErr (List (List (List ℚ))) × MPTState :=
  match task_ids with
  | none => (Except.error (MPTErr.inputError "task_ids cannot be None"), s)
  | some tids =>
      ((do
        let pe ← mapME (fun row => mapME (fun i => gatherIdx s.base_vectors i) row) indices
        let cols ← mapME (fun t => gatherIdx s.task_cols t) tids
        let rows ← mapME (fun t => gatherIdx s.task_rows t) tids
        let task_prompts := List.zipWith matmul2 cols rows
        Except.ok (mul3 pe task_prompts)), s)

/-- Value returned by `forward` (the raised error or the output tensor). -/
def forward (s : MPTState) (indices : List (List ℤ))
    (task_ids : Option (List ℤ)) : Except MPTErr (List (List (List ℚ))) :=
  (forwardSt s indices task_ids).1

/-! Concrete fixtures used by the witnesses and counterexamples. -/

/-- Table of the concrete scenario of the spec: `num_tasks = 1`,
`num_ranks = 1`, `total_virtual_tokens = 2`, `token_dim = 1`,
`base_vectors = [[2.0], [3.0]]`, `task_cols[0] = [[1.0], [0.5]]`,
`task_rows[0] = [[2.0]]`. -/
def scenarioState : MPTState :=
  { base_vectors := [[2], [3]]
    task_cols := [[[1], [1/2]]]
    task_rows := [[[2]]] }

/-- Noise oracle standing for a concrete Gaussian draw. -/
def zeroNoise : ℕ → ℕ → ℕ → ℚ := fun _ _ _ => 0

/-- A config with `EXACT_SOURCE_TASK` init and a negative source task index. -/
def cfgNeg : MPTConfig :=
  { prompt_tuning_init := MPTInit.EXACT_SOURCE_TASK
    prompt_tuning_init_state_dict_path := some "ckpt"
    prompt_tuning_init_task := -1
    num_virtual_tokens := 1
    num_transformer_submodules := 1
    token_dim := 1 }

/-- A checkpoint with two source tasks (`1 × 1` factors). -/
def fsTwo : String → Checkpoint := fun _ =>
  { prompt_embeddings := some [[5]]
    src_task_cols := some [[[1]], [[2]]]
    src_task_rows := some [[[3]], [[4]]] }

/-- A config with `EXACT_SOURCE_TASK` init and no state-dict path. -/
def cfgNoPath : MPTConfig :=
  { prompt_tuning_init := MPTInit.EXACT_SOURCE_TASK
    num_virtual_tokens := 1
    num_transformer_submodules := 1
    token_dim := 1 }

/-- The empty checkpoint mapping. -/
def fsEmpty : String → Checkpoint := fun _ => { }

/-- A config with `AVERAGE_SOURCE_TASKS` init. -/
def cfgAvg : MPTConfig :=
  { prompt_tuning_init := MPTInit.AVERAGE_SOURCE_TASKS
    prompt_tuning_init_state_dict_path := some "ckpt"
    num_virtual_tokens := 2
    num_transformer_submodules := 1
    token_dim := 1 }

/-- A checkpoint with two source tasks of `2 × 1` cols and `1 × 1` rows. -/
def fsAvg : String → Checkpoint := fun _ =>
  { prompt_embeddings := some [[5], [6]]
    src_task_cols := some [[[1], [2]], [[3], [6]]]
    src_task_rows := some [[[4]], [[8]]] }

/-- A config with `EXACT_SOURCE_TASK` init selecting source task 1. -/
def cfgExactOne : MPTConfig :=
  { prompt_tuning_init := MPTInit.EXACT_SOURCE_TASK
    prompt_tuning_init_state_dict_path := some "ckpt"
    prompt_tuning_init_task := 1
    num_virtual_tokens := 2
    num_transformer_submodules := 1
    token_dim := 1 }

/-- A config with `ONLY_SOURCE_SHARED` init. -/
def cfgOnly : MPTConfig :=
  { prompt_tuning_init := MPTInit.ONLY_SOURCE_SHARED
    prompt_tuning_init_state_dict_path := some "ckpt"
    num_virtual_tokens := 1
    num_transformer_submodules := 1
    token_dim := 1 }

/-- A checkpoint holding only `prompt_embeddings` (no factor keys). -/
def fsSharedOnly : String → Checkpoint := fun _ =>
  { prompt_embeddings := some [[7]] }

/-- A config with `EXACT_SOURCE_TASK` init and an index past the source
tasks of `fsTwo`. -/
def cfgBig : MPTConfig :=
  { prompt_tuning_init := MPTInit.EXACT_SOURCE_TASK
    prompt_tuning_init_state_dict_path := some "ckpt"
    prompt_tuning_init_task := 5
    num_virtual_tokens := 1
    num_transformer_submodules := 1
    token_dim := 1 }

/-- A config for round-tripping `scenarioState` through `EXACT_SOURCE_TASK`
with the default source task index (not supplied, hence 0). -/
def cfgRound : MPTConfig :=
  { prompt_tuning_init := MPTInit.EXACT_SOURCE_TASK
    prompt_tuning_init_state_dict_path := some "ckpt"
    num_virtual_tokens := 2
    num_transformer_submodules := 1
    token_dim := 1 }

/-- Checkpoint produced by saving `scenarioState`'s own tensors. -/
def fsRound : String → Checkpoint := fun _ =>
  { prompt_embeddings := some scenarioState.base_vectors
    src_task_cols := some scenarioState.task_cols
    src_task_rows := some scenarioState.task_rows }

/-- Construction of a config whose `prompt_tuning_init_task` field is not
supplied, so that the dataclass default (line 33) applies. -/
def mkExactCfg (p : String) (nt nr nvt nsub td : ℕ) : MPTConfig :=
  { prompt_tuning_init := MPTInit.EXACT_SOURCE_TASK
    prompt_tuning_init_state_dict_path := some p
    num_tasks := nt
    num_ranks := nr
    num_virtual_tokens := nvt
    num_transformer_submodules := nsub
    token_dim := td }

/-! Helper lemmas about the embedding, shared by the claim proofs. -/

@[simp] theorem ok_bind {α β : Type} (a : α) (f : α → Except MPTErr β) :
    (Except.ok a >>= f) = f a := rfl

@[simp] theorem error_bind {α β : Type} (e : MPTErr) (f : α → Except MPTErr β) :
    ((Except.error e : Except MPTErr α) >>= f) = Except.error e := rfl

@[simp] theorem exact_ne_avg :
    (MPTInit.EXACT_SOURCE_TASK = MPTInit.AVERAGE_SOURCE_TASKS) = False :=
  eq_false (by decide)

@[simp] theorem only_ne_avg :
    (MPTInit.ONLY_SOURCE_SHARED = MPTInit.AVERAGE_SOURCE_TASKS) = False :=
  eq_false (by decide)

@[simp] theorem only_ne_exact :
    (MPTInit.ONLY_SOURCE_SHARED = MPTInit.EXACT_SOURCE_TASK) = False :=
  eq_false (by decide)

@[simp] theorem cons_eq_nil_false {α : Type} (a : α) (l : List α) :
    (a :: l = []) = False :=
  eq_false (by simp)

theorem nthE_ok {α : Type} (d : α) : ∀ (xs : List α) (n : ℕ), n < xs.length →
    nthE xs n = Except.ok (nthD d xs n)
  | [], n, h => absurd h (by simp)
  | a :: _, 0, _ => rfl
  | _ :: t, n + 1, h => nthE_ok d t n (by simpa using h)

theorem nthE_err {α : Type} : ∀ (xs : List α) (n : ℕ), xs.length ≤ n →
    nthE xs n = Except.error MPTErr.indexError
  | [], _, _ => rfl
  | a :: t, 0, h => absurd h (by simp)
  | _ :: t, n + 1, h => nthE_err t n (by simpa using h)

theorem gatherIdx_ok {α : Type} (d : α) (xs : List α) (i : ℤ)
    (h0 : 0 ≤ i) (h1 : i.toNat < xs.length) :
    gatherIdx xs i = Except.ok (nthD d xs i.toNat) := by
  unfold gatherIdx
  rw [if_neg (not_lt.mpr h0), nthE_ok d xs i.toNat h1]

theorem gatherIdx_err {α : Type} (xs : List α) (i : ℤ)
    (h : ¬(0 ≤ i ∧ i.toNat < xs.length)) :
    gatherIdx xs i = Except.error MPTErr.indexError := by
  unfold gatherIdx
  by_cases h0 : i < 0
  · rw [if_pos h0]
  · rw [if_neg h0]
    push_neg at h0 h
    exact nthE_err xs i.toNat (h h0)

theorem mapME_gather_ok {α : Type} (d : α) (xs : List α) :
    ∀ (is : List ℤ), (∀ i ∈ is, 0 ≤ i ∧ i.toNat < xs.length) →
    mapME (fun i => gatherIdx xs i) is
      = Except.ok (is.map fun i => nthD d xs i.toNat)
  | [], _ => rfl
  | i :: t, h => by
    obtain ⟨h0, h1⟩ := h i (by simp)
    rw [mapME, gatherIdx_ok d xs i h0 h1, ok_bind,
      mapME_gather_ok d xs t (fun j hj => h j (List.mem_cons_of_mem i hj)), ok_bind]
    rfl

theorem mapME_gather_err {α : Type} (d : α) (xs : List α) :
    ∀ (is : List ℤ) (i : ℤ), i ∈ is → ¬(0 ≤ i ∧ i.toNat < xs.length) →
    mapME (fun j => gatherIdx xs j) is = Except.error MPTErr.indexError
  | [], i, hi, _ => absurd hi (by simp)
  | a :: t, i, hi, h => by
    rcases List.mem_cons.mp hi with rfl | hmem
    · rw [mapME, gatherIdx_err xs i h, error_bind]
    · rw [mapME]
      by_cases hgood : 0 ≤ a ∧ a.toNat < xs.length
      · rw [gatherIdx_ok d xs a hgood.1 hgood.2, ok_bind,
          mapME_gather_err d xs t i hmem h, error_bind]
      · rw [gatherIdx_err xs a hgood, error_bind]

theorem mapME2_gather_ok (w : List (List ℚ)) :
    ∀ (iss : List (List ℤ)), (∀ r ∈ iss, ∀ i ∈ r, 0 ≤ i ∧ i.toNat < w.length) →
    mapME (fun row => mapME (fun i => gatherIdx w i) row) iss
      = Except.ok (iss.map fun row => row.map fun i => nthD [] w i.toNat)
  | [], _ => rfl
  | r :: t, h => by
    rw [mapME, mapME_gather_ok [] w r (h r (by simp)), ok_bind,
      mapME2_gather_ok w t (fun r2 hr2 => h r2 (List.mem_cons_of_mem r hr2)), ok_bind]
    rfl

theorem pyGetItem_ok {α : Type} (d : α) (xs : List α) (i : ℤ)
    (h0 : 0 ≤ i) (h1 : i.toNat < xs.length) :
    pyGetItem xs i = Except.ok (nthD d xs i.toNat) := by
  unfold pyGetItem
  rw [if_neg (not_lt.mpr h0), if_neg (not_lt.mpr h0), nthE_ok d xs i.toNat h1]

theorem mptInit_nopath (cfg : MPTConfig) (e : List (List ℚ))
    (nC nR : ℕ → ℕ → ℕ → ℚ) (fs : String → Checkpoint)
    (hm : cfg.prompt_tuning_init ∈ [MPTInit.AVERAGE_SOURCE_TASKS,
      MPTInit.EXACT_SOURCE_TASK, MPTInit.ONLY_SOURCE_SHARED])
    (hp : cfg.prompt_tuning_init_state_dict_path = none) :
    mptInit cfg e nC nR fs =
      ([MPTEvent.allocFactors],
        Except.error (MPTErr.configError (pathErrorMsg cfg.prompt_tuning_init))) := by
  simp only [mptInit, hp, if_pos hm]

theorem mptInit_avg (cfg : MPTConfig) (e : List (List ℚ))
    (nC nR : ℕ → ℕ → ℕ → ℚ) (fs : String → Checkpoint) (p : String)
    (hm : cfg.prompt_tuning_init = MPTInit.AVERAGE_SOURCE_TASKS)
    (hp : cfg.prompt_tuning_init_state_dict_path = some p) :
    mptInit cfg e nC nR fs =
      ([MPTEvent.allocFactors, MPTEvent.checkpointRead], do
        let cols ← dictGet (fs p).src_task_cols "prefix_task_cols"
        let rows ← dictGet (fs p).src_task_rows "prefix_task_rows"
        let pe ← dictGet (fs p).prompt_embeddings "prompt_embeddings"
        loadStrict (initState cfg e nC nR) pe (meanDim0Keep cols) (meanDim0Keep rows)) := by
  simp [mptInit, hm, hp, bind_assoc]

theorem mptInit_exact (cfg : MPTConfig) (e : List (List ℚ))
    (nC nR : ℕ → ℕ → ℕ → ℚ) (fs : String → Checkpoint) (p : String)
    (hm : cfg.prompt_tuning_init = MPTInit.EXACT_SOURCE_TASK)
    (hp : cfg.prompt_tuning_init_state_dict_path = some p) :
    mptInit cfg e nC nR fs =
      ([MPTEvent.allocFactors, MPTEvent.checkpointRead], do
        let cols ← dictGet (fs p).src_task_cols "prefix_task_cols"
        let rows ← dictGet (fs p).src_task_rows "prefix_task_rows"
        let c ← pyGetItem cols cfg.prompt_tuning_init_task
        let r ← pyGetItem rows cfg.prompt_tuning_init_task
        let pe ← dictGet (fs p).prompt_embeddings "prompt_embeddings"
        loadStrict (initState cfg e nC nR) pe [c] [r]) := by
  simp [mptInit, hm, hp, bind_assoc]

theorem mptInit_only (cfg : MPTConfig) (e : List (List ℚ))
    (nC nR : ℕ → ℕ → ℕ → ℚ) (fs : String → Checkpoint) (p : String)
    (hm : cfg.prompt_tuning_init = MPTInit.ONLY_SOURCE_SHARED)
    (hp : cfg.prompt_tuning_init_state_dict_path = some p) :
    mptInit cfg e nC nR fs =
      ([MPTEvent.allocFactors, MPTEvent.checkpointRead], do
        let pe ← dictGet (fs p).prompt_embeddings "prompt_embeddings"
        loadNonStrictBase (initState cfg e nC nR) pe) := by
  simp [mptInit, hm, hp]

theorem pyGetItem_err {α : Type} (xs : List α) (i : ℤ)
    (h : i < -(xs.length : ℤ) ∨ (xs.length : ℤ) ≤ i) :
    pyGetItem xs i = Except.error MPTErr.indexError := by
  unfold pyGetItem
  rcases h with h | h
  · have hneg : i < 0 := by
      have : (0 : ℤ) ≤ xs.length := Int.natCast_nonneg _
      omega
    rw [if_pos hneg, if_pos (by omega)]
  · have hnn : ¬ i < 0 := by
      have : (0 : ℤ) ≤ xs.length := Int.natCast_nonneg _
      omega
    rw [if_neg hnn, if_neg hnn]
    exact nthE_err xs i.toNat (by omega)

theorem nthD_range_map {α : Type} (d : α) :
    ∀ (n : ℕ) (f : ℕ → α) (j : ℕ), j < n → nthD d ((List.range n).map f) j = f j
  | 0, _, j, h => absurd h (by simp)
  | n + 1, f, 0, _ => by
    rw [List.range_succ_eq_map]
    rfl
  | n + 1, f, j + 1, h => by
    rw [List.range_succ_eq_map, List.map_cons, List.map_map, nthD,
      nthD_range_map d n (f ∘ Nat.succ) j (by omega)]
    rfl

theorem meanDim0Keep_length (x : List (List (List ℚ))) :
    (meanDim0Keep x).length = 1 := rfl

theorem meanDim0Keep_entry (x : List (List (List ℚ))) (j k : ℕ)
    (hj : j < (x.headD []).length) (hk : k < (nthD [] (x.headD []) j).length) :
    nthD 0 (nthD [] (nthD [] (meanDim0Keep x) 0) j) k
      = (x.map fun t => nthD 0 (nthD [] t j) k).sum / (x.length : ℚ) := by
  unfold meanDim0Keep
  rw [show ∀ (m : List (List ℚ)), nthD [] [m] 0 = m from fun _ => rfl,
    nthD_range_map [] _ _ j hj, nthD_range_map 0 _ _ k hk]

theorem exact_init_ok (cfg : MPTConfig) (e pe : List (List ℚ))
    (nC nR : ℕ → ℕ → ℕ → ℚ) (fs : String → Checkpoint) (p : String)
    (cs rs : List (List (List ℚ)))
    (hm : cfg.prompt_tuning_init = MPTInit.EXACT_SOURCE_TASK)
    (hp : cfg.prompt_tuning_init_state_dict_path = some p)
    (hc : (fs p).src_task_cols = some cs)
    (hr : (fs p).src_task_rows = some rs)
    (hpe : (fs p).prompt_embeddings = some pe)
    (h0 : 0 ≤ cfg.prompt_tuning_init_task)
    (hlc : cfg.prompt_tuning_init_task.toNat < cs.length)
    (hlr : cfg.prompt_tuning_init_task.toNat < rs.length)
    (hsh : shape2 pe = shape2 e)
    (hshc : shape3 [nthD [] cs cfg.prompt_tuning_init_task.toNat]
      = shape3 (initState cfg e nC nR).task_cols)
    (hshr : shape3 [nthD [] rs cfg.prompt_tuning_init_task.toNat]
      = shape3 (initState cfg e nC nR).task_rows) :
    (mptInit cfg e nC nR fs).2
      = Except.ok { base_vectors := pe
                    task_cols := [nthD [] cs cfg.prompt_tuning_init_task.toNat]
                    task_rows := [nthD [] rs cfg.prompt_tuning_init_task.toNat] } := by
  rw [mptInit_exact cfg e nC nR fs p hm hp]
  simp only [hc, hr, hpe, dictGet, ok_bind]
  rw [pyGetItem_ok [] cs _ h0 hlc, ok_bind, pyGetItem_ok [] rs _ h0 hlr, ok_bind]
  unfold loadStrict
  rw [if_pos ⟨by rw [hsh]; rfl, by rw [hshc], by rw [hshr]⟩]

/-! Claim theorems. -/

/-- Claim C1: for every valid call `compose(indices, task_ids)` with non-null
`task_ids` whose entries lie in `[0, num_tasks)` and indices in range of
`base_vectors`, the result is the elementwise product of the gathered base
vectors with the batched matrix product of the gathered per-task factors;
and in the concrete scenario (`base_vectors = [[2],[3]]`,
`task_cols[0] = [[1],[1/2]]`, `task_rows[0] = [[2]]`), composing positions
`[0, 1]` for task 0 yields `[[4],[3]]` (per batch element). -/
theorem c1_compose_gather_product (s : MPTState) (indices : List (List ℤ))
    (tids : List ℤ)
    (hidx : ∀ r ∈ indices, ∀ i ∈ r, 0 ≤ i ∧ i.toNat < s.base_vectors.length)
    (hcols : ∀ t ∈ tids, 0 ≤ t ∧ t.toNat < s.task_cols.length)
    (hrows : ∀ t ∈ tids, 0 ≤ t ∧ t.toNat < s.task_rows.length) :
    forward s indices (some tids)
      = Except.ok (mul3
          (indices.map fun row => row.map fun i => nthD [] s.base_vectors i.toNat)
          (List.zipWith matmul2
            (tids.map fun t => nthD [] s.task_cols t.toNat)
            (tids.map fun t => nthD [] s.task_rows t.toNat)))
    ∧ forward scenarioState [[0, 1], [0, 1]] (some [0, 0])
        = Except.ok [[[4], [3]], [[4], [3]]] := by
  constructor
  · simp only [forward, forwardSt]
    rw [mapME2_gather_ok s.base_vectors indices hidx, ok_bind,
      mapME_gather_ok [] s.task_cols tids hcols, ok_bind,
      mapME_gather_ok [] s.task_rows tids hrows, ok_bind]
  · norm_num [forward, forwardSt, mapME, gatherIdx, nthE, nthD, matmul2, mul3,
      mul2, scenarioState, List.range_succ, List.range_zero]

/-- Witness for C1 at the concrete scenario inputs. -/
theorem c1_compose_gather_product_witness :
    forward scenarioState [[0, 1], [0, 1]] (some [0, 0])
      = Except.ok (mul3
          (([[0, 1], [0, 1]] : List (List ℤ)).map fun row =>
            row.map fun i => nthD [] scenarioState.base_vectors i.toNat)
          (List.zipWith matmul2
            (([0, 0] : List ℤ).map fun t => nthD [] scenarioState.task_cols t.toNat)
            (([0, 0] : List ℤ).map fun t => nthD [] scenarioState.task_rows t.toNat))) :=
  (c1_compose_gather_product scenarioState [[0, 1], [0, 1]] [0, 0]
    (by decide) (by decide) (by decide)).1

/-- Claim C2 counterexample: with `EXACT_SOURCE_TASK` and a missing path the
configuration error is raised, but the Gaussian allocation of the task
factors has already been performed when it is raised — the `torch.normal`
calls (lines 53-66) precede the path check (line 73) — contradicting
"raised before any tensor allocation for the task factors is performed". -/
theorem c2_error_after_alloc_counterexample :
    MPTEvent.allocFactors ∈ (mptInit cfgNoPath [[0]] zeroNoise zeroNoise fsEmpty).1
    ∧ (mptInit cfgNoPath [[0]] zeroNoise zeroNoise fsEmpty).2
        = Except.error (MPTErr.configError (pathErrorMsg MPTInit.EXACT_SOURCE_TASK)) := by
  rw [mptInit_nopath cfgNoPath [[0]] zeroNoise zeroNoise fsEmpty (by decide) rfl]
  exact ⟨by decide, rfl⟩

/-- Claim C2 (amended): for every configuration whose init mode is one of
`AVERAGE_SOURCE_TASKS`, `EXACT_SOURCE_TASK`, `ONLY_SOURCE_SHARED` and whose
state-dict path is `None`, construction fails with a configuration error
raised before any checkpoint read is attempted, and the message names the
offending mode; however the fresh Gaussian allocation of the task factors
has already been performed when the error is raised. -/
theorem c2_missing_path_config_error (cfg : MPTConfig) (e : List (List ℚ))
    (nC nR : ℕ → ℕ → ℕ → ℚ) (fs : String → Checkpoint)
    (hm : cfg.prompt_tuning_init = MPTInit.AVERAGE_SOURCE_TASKS
      ∨ cfg.prompt_tuning_init = MPTInit.EXACT_SOURCE_TASK
      ∨ cfg.prompt_tuning_init = MPTInit.ONLY_SOURCE_SHARED)
    (hp : cfg.prompt_tuning_init_state_dict_path = none) :
    (mptInit cfg e nC nR fs).2
      = Except.error (MPTErr.configError (pathErrorMsg cfg.prompt_tuning_init))
    ∧ MPTEvent.checkpointRead ∉ (mptInit cfg e nC nR fs).1
    ∧ (∃ pre post, pathErrorMsg cfg.prompt_tuning_init
        = pre ++ modeName cfg.prompt_tuning_init ++ post)
    ∧ MPTEvent.allocFactors ∈ (mptInit cfg e nC nR fs).1 := by
  have hmem : cfg.prompt_tuning_init ∈ [MPTInit.AVERAGE_SOURCE_TASKS,
      MPTInit.EXACT_SOURCE_TASK, MPTInit.ONLY_SOURCE_SHARED] := by
    rcases hm with h | h | h <;> simp [h]
  rw [mptInit_nopath cfg e nC nR fs hmem hp]
  refine ⟨rfl, by simp, ?_, by simp⟩
  exact ⟨"prompt_tuning_init_state_dict_path needs to be specified with ",
    " init method", rfl⟩

/-- Witness for C2 at a concrete `EXACT_SOURCE_TASK` configuration with no
path. -/
theorem c2_missing_path_config_error_witness :
    (mptInit cfgNoPath [[0]] zeroNoise zeroNoise fsEmpty).2
      = Except.error (MPTErr.configError (pathErrorMsg cfgNoPath.prompt_tuning_init))
    ∧ MPTEvent.checkpointRead ∉ (mptInit cfgNoPath [[0]] zeroNoise zeroNoise fsEmpty).1 :=
  ⟨(c2_missing_path_config_error cfgNoPath [[0]] zeroNoise zeroNoise fsEmpty
      (Or.inr (Or.inl rfl)) rfl).1,
   (c2_missing_path_config_error cfgNoPath [[0]] zeroNoise zeroNoise fsEmpty
      (Or.inr (Or.inl rfl)) rfl).2.1⟩

/-- Claim C5: for every construction with init mode `ONLY_SOURCE_SHARED`,
only `base_vectors` is overwritten (with the checkpoint's
`prompt_embeddings`); `task_cols` and `task_rows` keep their freshly
sampled values, and the load is non-strict, so nothing constrains the
factor keys of the checkpoint — they may be absent. -/
theorem c5_only_source_shared (cfg : MPTConfig) (e pe : List (List ℚ))
    (nC nR : ℕ → ℕ → ℕ → ℚ) (fs : String → Checkpoint) (p : String)
    (hm : cfg.prompt_tuning_init = MPTInit.ONLY_SOURCE_SHARED)
    (hp : cfg.prompt_tuning_init_state_dict_path = some p)
    (hpe : (fs p).prompt_embeddings = some pe)
    (hsh : shape2 pe = shape2 e) :
    (mptInit cfg e nC nR fs).2
      = Except.ok { base_vectors := pe
                    task_cols := (initState cfg e nC nR).task_cols
                    task_rows := (initState cfg e nC nR).task_rows } := by
  rw [mptInit_only cfg e nC nR fs p hm hp]
  simp only [hpe, dictGet, ok_bind]
  unfold loadNonStrictBase
  rw [if_pos (by rw [hsh]; rfl)]

/-- Witness for C5: a checkpoint that lacks both factor keys still loads,
and only the base vectors change. -/
theorem c5_only_source_shared_witness :
    (mptInit cfgOnly [[0]] zeroNoise zeroNoise fsSharedOnly).2
      = Except.ok { base_vectors := [[7]]
                    task_cols := (initState cfgOnly [[0]] zeroNoise zeroNoise).task_cols
                    task_rows := (initState cfgOnly [[0]] zeroNoise zeroNoise).task_rows } :=
  c5_only_source_shared cfgOnly [[0]] [[7]] zeroNoise zeroNoise fsSharedOnly
    "ckpt" rfl rfl rfl (by decide)

/-- Claim C3: for every construction with init mode `EXACT_SOURCE_TASK` and
source task index `k` in `[0, num_source_tasks)`, the resulting `task_cols`
and `task_rows` have leading dimension 1 and equal exactly the `k`-th slice
of the checkpoint's factors, and `base_vectors` is overwritten with the
checkpoint's `prompt_embeddings` via the strict load (whose shape
compatibility is the stated hypothesis). -/
theorem c3_exact_source_task (cfg : MPTConfig) (e pe : List (List ℚ))
    (nC nR : ℕ → ℕ → ℕ → ℚ) (fs : String → Checkpoint) (p : String)
    (cs rs : List (List (List ℚ))) (k : ℕ)
    (hm : cfg.prompt_tuning_init = MPTInit.EXACT_SOURCE_TASK)
    (hp : cfg.prompt_tuning_init_state_dict_path = some p)
    (hk : cfg.prompt_tuning_init_task = (k : ℤ))
    (hc : (fs p).src_task_cols = some cs)
    (hr : (fs p).src_task_rows = some rs)
    (hpe : (fs p).prompt_embeddings = some pe)
    (hlc : k < cs.length) (hlr : k < rs.length)
    (hsh : shape2 pe = shape2 e)
    (hshc : shape3 [nthD [] cs k] = shape3 (initState cfg e nC nR).task_cols)
    (hshr : shape3 [nthD [] rs k] = shape3 (initState cfg e nC nR).task_rows) :
    (mptInit cfg e nC nR fs).2
      = Except.ok { base_vectors := pe
                    task_cols := [nthD [] cs k]
                    task_rows := [nthD [] rs k] }
    ∧ ([nthD [] cs k] : List (List (List ℚ))).length = 1
    ∧ ([nthD [] rs k] : List (List (List ℚ))).length = 1 := by
  refine ⟨?_, rfl, rfl⟩
  have h := exact_init_ok cfg e pe nC nR fs p cs rs hm hp hc hr hpe
    (by rw [hk]; exact Int.natCast_nonneg k)
    (by rw [hk, Int.toNat_natCast]; exact hlc)
    (by rw [hk, Int.toNat_natCast]; exact hlr)
    hsh
    (by rw [hk, Int.toNat_natCast]; exact hshc)
    (by rw [hk, Int.toNat_natCast]; exact hshr)
  rw [h, hk, Int.toNat_natCast]

/-- Witness for C3: selecting source task 1 out of a two-task checkpoint. -/
theorem c3_exact_source_task_witness :
    (mptInit cfgExactOne [[0], [0]] zeroNoise zeroNoise fsAvg).2
      = Except.ok { base_vectors := [[5], [6]]
                    task_cols := [nthD [] [[[1], [2]], [[3], [6]]] 1]
                    task_rows := [nthD [] [[[4]], [[8]]] 1] } :=
  (c3_exact_source_task cfgExactOne [[0], [0]] [[5], [6]] zeroNoise zeroNoise
    fsAvg "ckpt" [[[1], [2]], [[3], [6]]] [[[4]], [[8]]] 1 rfl rfl rfl rfl rfl rfl
    (by decide) (by decide) (by decide) (by decide) (by decide)).1

/-- Claim C4: for every construction with init mode `AVERAGE_SOURCE_TASKS`,
the resulting factors have leading dimension 1 and equal the arithmetic
mean over the source-task dimension of the checkpoint's factors, and
`base_vectors` is overwritten with the checkpoint's `prompt_embeddings` via
a strict load that fails fatally on a missing key or a shape mismatch. -/
theorem c4_average_source_tasks (cfg : MPTConfig) (e : List (List ℚ))
    (nC nR : ℕ → ℕ → ℕ → ℚ) (fs : String → Checkpoint) (p : String)
    (cs rs : List (List (List ℚ)))
    (hm : cfg.prompt_tuning_init = MPTInit.AVERAGE_SOURCE_TASKS)
    (hp : cfg.prompt_tuning_init_state_dict_path = some p)
    (hc : (fs p).src_task_cols = some cs)
    (hr : (fs p).src_task_rows = some rs) :
    (∀ pe, (fs p).prompt_embeddings = some pe →
      shape2 pe = shape2 e →
      shape3 (meanDim0Keep cs) = shape3 (initState cfg e nC nR).task_cols →
      shape3 (meanDim0Keep rs) = shape3 (initState cfg e nC nR).task_rows →
      (mptInit cfg e nC nR fs).2
        = Except.ok { base_vectors := pe
                      task_cols := meanDim0Keep cs
                      task_rows := meanDim0Keep rs })
    ∧ (meanDim0Keep cs).length = 1
    ∧ (meanDim0Keep rs).length = 1
    ∧ (∀ j k, j < (cs.headD []).length → k < (nthD [] (cs.headD []) j).length →
        nthD 0 (nthD [] (nthD [] (meanDim0Keep cs) 0) j) k
          = (cs.map fun t => nthD 0 (nthD [] t j) k).sum / (cs.length : ℚ))
    ∧ ((fs p).prompt_embeddings = none →
        (mptInit cfg e nC nR fs).2 = Except.error (MPTErr.keyError "prompt_embeddings"))
    ∧ (∀ pe, (fs p).prompt_embeddings = some pe →
        ¬(shape2 pe = shape2 e
          ∧ shape3 (meanDim0Keep cs) = shape3 (initState cfg e nC nR).task_cols
          ∧ shape3 (meanDim0Keep rs) = shape3 (initState cfg e nC nR).task_rows) →
        (mptInit cfg e nC nR fs).2 = Except.error MPTErr.loadError) := by
  rw [mptInit_avg cfg e nC nR fs p hm hp]
  refine ⟨?_, rfl, rfl, ?_, ?_, ?_⟩
  · intro pe hpe h1 h2 h3
    dsimp only
    simp only [hc, hr, hpe, dictGet, ok_bind]
    unfold loadStrict
    rw [if_pos ⟨by rw [h1]; rfl, by rw [h2], by rw [h3]⟩]
  · exact fun j k hj hk => meanDim0Keep_entry cs j k hj hk
  · intro hnone
    dsimp only
    simp only [hc, hr, hnone, dictGet, ok_bind, error_bind]
  · intro pe hpe hbad
    dsimp only
    simp only [hc, hr, hpe, dictGet, ok_bind]
    unfold loadStrict
    rw [if_neg (show ¬(shape2 pe = shape2 (initState cfg e nC nR).base_vectors
      ∧ shape3 (meanDim0Keep cs) = shape3 (initState cfg e nC nR).task_cols
      ∧ shape3 (meanDim0Keep rs) = shape3 (initState cfg e nC nR).task_rows)
      from fun hcond => hbad hcond)]

/-- Witness for C4: averaging a two-task checkpoint. -/
theorem c4_average_source_tasks_witness :
    (mptInit cfgAvg [[0], [0]] zeroNoise zeroNoise fsAvg).2
      = Except.ok { base_vectors := [[5], [6]]
                    task_cols := meanDim0Keep [[[1], [2]], [[3], [6]]]
                    task_rows := meanDim0Keep [[[4]], [[8]]] } :=
  (c4_average_source_tasks cfgAvg [[0], [0]] zeroNoise zeroNoise fsAvg "ckpt"
    [[[1], [2]], [[3], [6]]] [[[4]], [[8]]] rfl rfl rfl rfl).1
    [[5], [6]] rfl (by decide) (by decide) (by decide)

/-- Claim C7: for every table with `num_tasks = 1`, constructing a new table
with `EXACT_SOURCE_TASK` (index 0) from a checkpoint containing the table's
own `base_vectors`, `task_cols`, `task_rows` reproduces exactly the
original parameter state, hence identical compose outputs on every input. -/
theorem c7_round_trip (cfg : MPTConfig) (s : MPTState) (e : List (List ℚ))
    (nC nR : ℕ → ℕ → ℕ → ℚ) (fs : String → Checkpoint) (p : String)
    (hm : cfg.prompt_tuning_init = MPTInit.EXACT_SOURCE_TASK)
    (hp : cfg.prompt_tuning_init_state_dict_path = some p)
    (htask : cfg.prompt_tuning_init_task = 0)
    (hc : (fs p).src_task_cols = some s.task_cols)
    (hr : (fs p).src_task_rows = some s.task_rows)
    (hpe : (fs p).prompt_embeddings = some s.base_vectors)
    (hlen : s.task_cols.length = 1) (hlen2 : s.task_rows.length = 1)
    (hsh : shape2 s.base_vectors = shape2 e)
    (hshc : shape3 s.task_cols = shape3 (initState cfg e nC nR).task_cols)
    (hshr : shape3 s.task_rows = shape3 (initState cfg e nC nR).task_rows) :
    (mptInit cfg e nC nR fs).2 = Except.ok s
    ∧ ∀ (indices : List (List ℤ)) (task_ids : Option (List ℤ)) (s2 : MPTState),
        (mptInit cfg e nC nR fs).2 = Except.ok s2 →
        forward s2 indices task_ids = forward s indices task_ids := by
  obtain ⟨c0, hc0⟩ := List.length_eq_one.mp hlen
  obtain ⟨r0, hr0⟩ := List.length_eq_one.mp hlen2
  have hcols1 : [nthD [] s.task_cols (0 : ℤ).toNat] = s.task_cols := by
    rw [hc0]; rfl
  have hrows1 : [nthD [] s.task_rows (0 : ℤ).toNat] = s.task_rows := by
    rw [hr0]; rfl
  have h := exact_init_ok cfg e s.base_vectors nC nR fs p s.task_cols s.task_rows
    hm hp hc hr hpe (by rw [htask])
    (by rw [htask, hlen]; decide) (by rw [htask, hlen2]; decide)
    hsh (by rw [htask, hcols1]; exact hshc) (by rw [htask, hrows1]; exact hshr)
  rw [htask, hcols1, hrows1] at h
  refine ⟨h, ?_⟩
  intro indices task_ids s2 h2
  rw [h] at h2
  injection h2 with h3
  rw [← h3]

/-- Witness for C7: round-tripping the scenario table through a checkpoint
of its own tensors. -/
theorem c7_round_trip_witness :
    (mptInit cfgRound [[0], [0]] zeroNoise zeroNoise fsRound).2
      = Except.ok scenarioState
    ∧ forward scenarioState [[0, 1]] (some [0])
        = forward scenarioState [[0, 1]] (some [0]) := by
  have h := c7_round_trip cfgRound scenarioState [[0], [0]] zeroNoise zeroNoise
    fsRound "ckpt" rfl rfl rfl rfl rfl rfl rfl rfl (by decide) (by decide) (by decide)
  exact ⟨h.1, h.2 [[0, 1]] (some [0]) scenarioState h.1⟩

/-- Claim C8 counterexample: `prompt_tuning_init_task = -1` lies outside
`[0, num_source_tasks) = [0, 2)`, yet construction raises no index error:
Python advanced indexing wraps the negative index and construction returns
the factors of the last source task. -/
theorem c8_negative_index_counterexample :
    (mptInit cfgNeg [[0]] zeroNoise zeroNoise fsTwo).2
      = Except.ok { base_vectors := [[5]]
                    task_cols := [[[2]]]
                    task_rows := [[[4]]] } := by
  norm_num [mptInit, cfgNeg, fsTwo, zeroNoise, dictGet, pyGetItem, nthE,
    loadStrict, mkTensor3, shape2, shape3, initState, List.range_succ,
    List.range_zero]

/-- Claim C8 (amended): a `source_task_index` outside
`[-num_source_tasks, num_source_tasks)` at `EXACT_SOURCE_TASK` construction
(with the factor keys present), and a `task_ids` entry outside
`[0, num_tasks)` at compose (with indices in range), raise an index error
propagated from the underlying indexing operation; a negative index in
`[-num_source_tasks, 0)` instead selects from the end. -/
theorem c8_out_of_range_index (cfg : MPTConfig) (e : List (List ℚ))
    (nC nR : ℕ → ℕ → ℕ → ℚ) (fs : String → Checkpoint) (p : String)
    (cs rs : List (List (List ℚ)))
    (hm : cfg.prompt_tuning_init = MPTInit.EXACT_SOURCE_TASK)
    (hp : cfg.prompt_tuning_init_state_dict_path = some p)
    (hc : (fs p).src_task_cols = some cs)
    (hr : (fs p).src_task_rows = some rs)
    (ht : cfg.prompt_tuning_init_task < -(cs.length : ℤ)
      ∨ (cs.length : ℤ) ≤ cfg.prompt_tuning_init_task) :
    (mptInit cfg e nC nR fs).2 = Except.error MPTErr.indexError
    ∧ ∀ (s : MPTState) (indices : List (List ℤ)) (tids : List ℤ) (t : ℤ),
        t ∈ tids → ¬(0 ≤ t ∧ t.toNat < s.task_cols.length) →
        (∀ r ∈ indices, ∀ i ∈ r, 0 ≤ i ∧ i.toNat < s.base_vectors.length) →
        forward s indices (some tids) = Except.error MPTErr.indexError := by
  constructor
  · rw [mptInit_exact cfg e nC nR fs p hm hp]
    dsimp only
    simp only [hc, hr, dictGet, ok_bind]
    rw [pyGetItem_err cs _ ht, error_bind]
  · intro s indices tids t htm hbad hidx
    simp only [forward, forwardSt]
    rw [mapME2_gather_ok s.base_vectors indices hidx, ok_bind,
      mapME_gather_err [] s.task_cols tids t htm hbad, error_bind]

/-- Witness for C8: a too-large source task index at construction, and a
too-large task id at compose. -/
theorem c8_out_of_range_index_witness :
    (mptInit cfgBig [[0]] zeroNoise zeroNoise fsTwo).2
      = Except.error MPTErr.indexError
    ∧ forward scenarioState [[0, 1], [0, 1]] (some [0, 5])
        = Except.error MPTErr.indexError := by
  have h := c8_out_of_range_index cfgBig [[0]] zeroNoise zeroNoise fsTwo "ckpt"
    [[[1]], [[2]]] [[[3]], [[4]]] rfl rfl rfl rfl (by decide)
  exact ⟨h.1, h.2 scenarioState [[0, 1], [0, 1]] [0, 5] 5
    (by decide) (by decide) (by decide)⟩

/-- Claim C10: `prompt_tuning_init_task` defaults to 0, so a configuration
built without supplying the index constructs successfully under
`EXACT_SOURCE_TASK` and silently selects the factors of source task 0. -/
theorem c10_default_task_index (p : String) (nt nr nvt nsub td : ℕ)
    (e pe : List (List ℚ)) (nC nR : ℕ → ℕ → ℕ → ℚ) (fs : String → Checkpoint)
    (cs rs : List (List (List ℚ)))
    (hc : (fs p).src_task_cols = some cs)
    (hr : (fs p).src_task_rows = some rs)
    (hpe : (fs p).prompt_embeddings = some pe)
    (hlc : 0 < cs.length) (hlr : 0 < rs.length)
    (hsh : shape2 pe = shape2 e)
    (hshc : shape3 [nthD [] cs 0]
      = shape3 (initState (mkExactCfg p nt nr nvt nsub td) e nC nR).task_cols)
    (hshr : shape3 [nthD [] rs 0]
      = shape3 (initState (mkExactCfg p nt nr nvt nsub td) e nC nR).task_rows) :
    (mkExactCfg p nt nr nvt nsub td).prompt_tuning_init_task = 0
    ∧ (mptInit (mkExactCfg p nt nr nvt nsub td) e nC nR fs).2
        = Except.ok { base_vectors := pe
                      task_cols := [nthD [] cs 0]
                      task_rows := [nthD [] rs 0] } := by
  refine ⟨rfl, ?_⟩
  exact exact_init_ok (mkExactCfg p nt nr nvt nsub td) e pe nC nR fs p cs rs
    rfl rfl hc hr hpe (le_refl 0) hlc hlr hsh hshc hshr

/-- Witness for C10: the scenario checkpoint loads with the defaulted index
and selects slice 0. -/
theorem c10_default_task_index_witness :
    (mkExactCfg "ckpt" 1 1 2 1 1).prompt_tuning_init_task = 0
    ∧ (mptInit (mkExactCfg "ckpt" 1 1 2 1 1) [[0], [0]] zeroNoise zeroNoise fsRound).2
        = Except.ok { base_vectors := scenarioState.base_vectors
                      task_cols := [nthD [] scenarioState.task_cols 0]
                      task_rows := [nthD [] scenarioState.task_rows 0] } :=
  c10_default_task_index "ckpt" 1 1 2 1 1 [[0], [0]] scenarioState.base_vectors
    zeroNoise zeroNoise fsRound scenarioState.task_cols scenarioState.task_rows
    rfl rfl rfl (by decide) (by decide) (by decide) (by decide) (by decide)

/-- Claim C6: for every indices input, calling compose with `task_ids`
absent (`None`) raises the input error and never returns a value; there is
no task-agnostic fallback output. -/
theorem c6_none_task_ids_error (s : MPTState) (indices : List (List ℤ)) :
    forward s indices none
      = Except.error (MPTErr.inputError "task_ids cannot be None") := rfl

/-- Claim C9: compose is a pure function of the parameter state and its
inputs: the parameter state after the call is unchanged, and two calls with
equal inputs under equal parameter state return equal outputs. -/
theorem c9_compose_pure (s : MPTState) (indices : List (List ℤ))
    (task_ids : Option (List ℤ)) :
    (forwardSt s indices task_ids).2 = s
    ∧ ∀ s2 indices2 task_ids2, s2 = s → indices2 = indices → task_ids2 = task_ids →
        forward s2 indices2 task_ids2 = forward s indices task_ids := by
  constructor
  · cases task_ids <;> rfl
  · intro s2 i2 t2 h1 h2 h3
    rw [h1, h2, h3]

/-- Witness for C9 at the concrete scenario inputs. -/
theorem c9_compose_pure_witness :
    (forwardSt scenarioState [[0, 1], [0, 1]] (some [0, 0])).2 = scenarioState
    ∧ forward scenarioState [[0, 1], [0, 1]] (some [0, 0])
        = forward scenarioState [[0, 1], [0, 1]] (some [0, 0]) :=
  ⟨(c9_compose_pure scenarioState [[0, 1], [0, 1]] (some [0, 0])).1,
   (c9_compose_pure scenarioState [[0, 1], [0, 1]] (some [0, 0])).2
     scenarioState [[0, 1], [0, 1]] (some [0, 0]) rfl rfl rfl⟩

end MPT
